import Mathlib

/- Shallow embedding of livesplit-one-terminal (src/main.rs): the input key
   dispatch, the 24-bit color quantization, the per-frame region layout, the
   text overlay merge, title composition, run acquisition at startup, CLI
   option handling, and the lock/draw event order of the render function. -/

/-- Engine commands dispatched by the input thread (src/main.rs lines 134-140),
named after the livesplit_core timer methods invoked. -/
inductive TimerCmd
  | split_or_start
  | skip_split
  | reset (update_splits : Bool)
  | switch_to_previous_comparison
  | toggle_pause_or_start
  | switch_to_next_comparison
  | undo_split
deriving DecidableEq

/-- Key-to-command mapping of the input thread's match (src/main.rs lines
132-142): the quit key and every unmapped key dispatch nothing. -/
def keyCommand (c : Char) : Option TimerCmd :=
  if c = '1' then some TimerCmd.split_or_start
  else if c = '2' then some TimerCmd.skip_split
  else if c = '3' then some (TimerCmd.reset true)
  else if c = '4' then some TimerCmd.switch_to_previous_comparison
  else if c = '5' then some TimerCmd.toggle_pause_or_start
  else if c = '6' then some TimerCmd.switch_to_next_comparison
  else if c = '8' then some TimerCmd.undo_split
  else none

/-- Observable actions of one activation of the input thread's inner read
cycle (src/main.rs lines 128-145): command dispatches into the timer, and the
quit notification sent on the channel after the for loop ends. -/
inductive InputEvent
  | cmd (c : TimerCmd)
  | quit_notify
deriving DecidableEq

/-- Commands dispatched, in order, by one activation of the inner read cycle
over a given key sequence: processing stops at the quit key (break), and keys
with no mapping dispatch nothing. -/
def processKeys : List Char → List TimerCmd
  | [] => []
  | k :: ks =>
    if k = 'q' then []
    else
      match keyCommand k with
      | some c => c :: processKeys ks
      | none => processKeys ks

/-- Full event trace of one activation of the inner read cycle: the for loop
over the key stream ends on the quit key or on stream exhaustion, and then one
quit notification is sent (src/main.rs lines 130-144). -/
def cycleEvents : List Char → List InputEvent
  | [] => [InputEvent.quit_notify]
  | k :: ks =>
    if k = 'q' then [InputEvent.quit_notify]
    else
      match keyCommand k with
      | some c => InputEvent.cmd c :: cycleEvents ks
      | none => cycleEvents ks

/-- Quantization of one normalized color channel, from get_tui_color
(src/main.rs lines 39-43): (c * 255.0) as u8. The Rust cast to u8 truncates
toward zero and saturates, modelled as floor clamped to [0, 255]. -/
def quantizeChannel (c : ℚ) : ℤ :=
  max 0 (min 255 ⌊c * 255⌋)

/-- Color resolution from a normalized RGB triple to an 8-bit-per-channel
triple, from get_tui_color (src/main.rs lines 39-43). -/
def get_tui_color (red green blue : ℚ) : ℤ × ℤ × ℤ :=
  (quantizeChannel red, quantizeChannel green, quantizeChannel blue)

/-- Layout direction of the tui Group (src/main.rs line 176). -/
inductive Direction
  | horizontal
  | vertical
deriving DecidableEq

/-- The per-frame layout: margin, direction and the ordered fixed region
sizes of the tui Group (src/main.rs lines 168-176). -/
structure FrameLayout where
  margin : Nat
  direction : Direction
  sizes : List Nat
deriving DecidableEq

/-- Height of the splits-table region (src/main.rs line 171):
splits_state.splits.len() as u16 + 3, with the u16 cast truncating modulo
2^16 and u16 addition wrapping modulo 2^16. -/
def splitsRegionHeight (n : Nat) : Nat :=
  (n % 65536 + 3) % 65536

/-- The frame layout computed each frame for splits row count n
(src/main.rs lines 168-176): margin 1, vertical, six fixed sizes in order
title, splits table, timer, previous segment, sum of best, possible time
save. -/
def frameLayout (n : Nat) : FrameLayout :=
  { margin := 1
    direction := Direction.vertical
    sizes := [3, splitsRegionHeight n, 2, 1, 1, 1] }

/-- Character-wise overlay merge used by the title line and the info lines
(src/main.rs lines 182-185 and 248-251): zip the two character sequences and
keep the overlay character unless it is whitespace. -/
def overlayMerge (base overlay : List Char) : List Char :=
  List.zipWith (fun c a => if a.isWhitespace then c else a) base overlay

/-- Left padding with spaces to width w, the Rust right-justifying format
spec. Strings longer than w are left unchanged. -/
def padLeft (w : Nat) (s : List Char) : List Char :=
  List.replicate (w - s.length) ' ' ++ s

/-- Right padding with spaces to width w, the Rust left-justifying format
spec. Strings longer than w are left unchanged. -/
def padRight (w : Nat) (s : List Char) : List Char :=
  s ++ List.replicate (w - s.length) ' '

/-- Centering in width w, the Rust centering format spec: the excess space
goes to the right. Strings longer than w are left unchanged. -/
def padCenter (w : Nat) (s : List Char) : List Char :=
  List.replicate ((w - s.length) / 2) ' ' ++ s ++
    List.replicate (w - s.length - (w - s.length) / 2) ' '

/-- Info-line composition (src/main.rs lines 245-252): left-justify the label
in 35 columns, right-justify the value in 35 columns, then overlay merge. -/
def format_info_text (text value : List Char) : List Char :=
  overlayMerge (padRight 35 text) (padLeft 35 value)

/-- Merge as the spec describes it for mismatched operand widths: both
operands must be the same fixed width and a width mismatch is a failure, not
an output. Stated from the spec text, for comparison with overlayMerge. -/
def mergeSpecChecked (base overlay : List Char) : Option (List Char) :=
  if base.length = overlay.length then some (overlayMerge base overlay) else none

/-- The title widget state consumed by draw (src/main.rs lines 178-189):
line1, an optional line2 (category), and an optional attempt count. -/
structure TitleState where
  line1 : List Char
  line2 : Option (List Char)
  attempts : Option Nat
deriving DecidableEq

/-- Text of the title paragraph composed by draw (src/main.rs lines 180-188):
line1 centered in 35 columns, a newline, then the centered category (empty
when line2 is absent) overlaid with the right-justified attempt count. The
code calls state.attempts.unwrap(), which panics when attempts is absent;
that panic is modelled as none. -/
def composeTitleText (s : TitleState) : Option (List Char) :=
  match s.attempts with
  | none => none
  | some a =>
    some (padCenter 35 s.line1 ++ '\n' ::
      overlayMerge (padCenter 35 (s.line2.getD []))
        (padLeft 35 (Nat.repr a).toList))

/-- A run: game name, category name and ordered segment names, the part of
the livesplit_core Run this program constructs (src/main.rs lines 74-98). -/
structure Run where
  game : String
  category : String
  segments : List String
deriving DecidableEq

/-- The built-in default run substituted when no FILE argument is given
(src/main.rs lines 89-98). -/
def defaultRun : Run :=
  { game := "Livesplit Terminal"
    category := "Any%"
    segments := ["Split 1", "Split 2", "Split 3", "Split 4", "Complete!"] }

/-- Outcome of run acquisition at startup: a run to use, or a one-line
diagnostic printed to standard output together with a process exit code
(error_out, src/main.rs lines 50-53). -/
inductive RunAcquisition
  | ok (r : Run)
  | fail (diagnostic : String) (code : Nat)
deriving DecidableEq

/-- Run acquisition (src/main.rs lines 73-98): with no FILE argument the
default run is substituted silently; with a FILE argument, a failed open
prints one diagnostic naming the path and exits 1, a failed parse likewise;
otherwise the parsed run is used. File opening and parsing are external and
passed in as oracles. -/
def acquireRun {α : Type} (fileArg : Option String) (openF : String → Option α)
    (parseF : α → Option Run) : RunAcquisition :=
  match fileArg with
  | none => RunAcquisition.ok defaultRun
  | some path =>
    match openF path with
    | none => RunAcquisition.fail ("Unable to open " ++ path) 1
    | some f =>
      match parseF f with
      | none => RunAcquisition.fail ("Unable to parse " ++ path) 1
      | some r => RunAcquisition.ok r

/-- Result of getopts argument processing consumed by main (src/main.rs
lines 63-71): whether -h or --help was present, and the free arguments. -/
structure Matches where
  help : Bool
  free : List String
deriving DecidableEq

/-- Outcome of CLI handling: print the usage text and exit with the given
code (print_help, src/main.rs lines 45-48), or proceed with the free
arguments. -/
inductive CliOutcome
  | usage_exit (code : Nat)
  | proceed (free : List String)
deriving DecidableEq

/-- CLI option handling (src/main.rs lines 60-71): a parse error (modelled as
none) calls print_help, which prints usage and exits 0; so does -h or --help;
otherwise execution proceeds with the free arguments. -/
def handleCli : Option Matches → CliOutcome
  | none => CliOutcome.usage_exit 0
  | some m => if m.help then CliOutcome.usage_exit 0 else CliOutcome.proceed m.free

/-- The six widgets drawn each frame. -/
inductive Widget
  | title
  | splits
  | timer
  | previous_segment
  | sum_of_best
  | possible_time_save
deriving DecidableEq

/-- Events of one execution of draw (src/main.rs lines 163-243) touching the
shared timer lock or the terminal: acquiring the read lock, querying one
widget state while it is held, releasing it, and rendering one widget. -/
inductive DrawEvent
  | acquire_read
  | query (w : Widget)
  | release_read
  | draw_widget (w : Widget)
deriving DecidableEq

/-- The straight-line event trace of draw (src/main.rs lines 163-243). Each
layout.timer.read() creates a temporary guard that lives only for the one
state(...) call it feeds, so each query sits between its own acquire and
release; renders happen between, with no guard alive. -/
def drawTrace : List DrawEvent :=
  [DrawEvent.acquire_read, DrawEvent.query Widget.splits, DrawEvent.release_read,
   DrawEvent.acquire_read, DrawEvent.query Widget.title, DrawEvent.release_read,
   DrawEvent.draw_widget Widget.title,
   DrawEvent.draw_widget Widget.splits,
   DrawEvent.acquire_read, DrawEvent.query Widget.timer, DrawEvent.release_read,
   DrawEvent.draw_widget Widget.timer,
   DrawEvent.acquire_read, DrawEvent.query Widget.previous_segment, DrawEvent.release_read,
   DrawEvent.draw_widget Widget.previous_segment,
   DrawEvent.acquire_read, DrawEvent.query Widget.sum_of_best, DrawEvent.release_read,
   DrawEvent.draw_widget Widget.sum_of_best,
   DrawEvent.acquire_read, DrawEvent.query Widget.possible_time_save, DrawEvent.release_read,
   DrawEvent.draw_widget Widget.possible_time_save]

/-- True of lock-acquisition events. -/
def isAcquire : DrawEvent → Bool
  | DrawEvent.acquire_read => true
  | _ => false

/-- True of widget-rendering events. -/
def isDraw : DrawEvent → Bool
  | DrawEvent.draw_widget _ => true
  | _ => false

/-- Checks that every rendering event happens at read-lock depth zero, given
the starting depth. -/
def drawDepthOk : List DrawEvent → Nat → Bool
  | [], _ => true
  | DrawEvent.acquire_read :: es, d => drawDepthOk es (d + 1)
  | DrawEvent.release_read :: es, d => drawDepthOk es (d - 1)
  | DrawEvent.query _ :: es, d => drawDepthOk es d
  | DrawEvent.draw_widget _ :: es, d => d == 0 && drawDepthOk es d

/-- Checks that the trace is a sequence of rendering events and of
acquire-query-release triples: every lock acquisition is held for exactly one
widget state query and released immediately after. -/
def wellBracketed : List DrawEvent → Bool
  | [] => true
  | DrawEvent.acquire_read :: DrawEvent.query _ :: DrawEvent.release_read :: es =>
    wellBracketed es
  | DrawEvent.draw_widget _ :: es => wellBracketed es
  | _ => false

/-- Claim C1: for every key received by the input listener, the dispatched
engine command is exactly the fixed mapping 1 = start-or-split, 2 = skip
split, 3 = reset with history update, 4 = previous comparison, 5 =
pause/resume, 6 = next comparison, 8 = undo split; every key outside this
mapping, including the quit key, dispatches no engine command. -/
theorem c1_key_mapping :
    keyCommand '1' = some TimerCmd.split_or_start ∧
    keyCommand '2' = some TimerCmd.skip_split ∧
    keyCommand '3' = some (TimerCmd.reset true) ∧
    keyCommand '4' = some TimerCmd.switch_to_previous_comparison ∧
    keyCommand '5' = some TimerCmd.toggle_pause_or_start ∧
    keyCommand '6' = some TimerCmd.switch_to_next_comparison ∧
    keyCommand '8' = some TimerCmd.undo_split ∧
    ∀ c : Char, c ∉ (['1', '2', '3', '4', '5', '6', '8'] : List Char) →
      keyCommand c = none := by
  refine ⟨by decide, by decide, by decide, by decide, by decide, by decide, by decide, ?_⟩
  intro c hc
  simp only [List.mem_cons, List.not_mem_nil, or_false] at hc
  push_neg at hc
  obtain ⟨h1, h2, h3, h4, h5, h6, h8⟩ := hc
  simp [keyCommand, h1, h2, h3, h4, h5, h6, h8]

/-- Witness for C1 at the concrete unmapped key q. -/
theorem c1_key_mapping_witness :
    ('q' ∉ (['1', '2', '3', '4', '5', '6', '8'] : List Char)) ∧ keyCommand 'q' = none :=
  ⟨by decide, c1_key_mapping.2.2.2.2.2.2.2 'q' (by decide)⟩

/-- Claim C2: each activation of the inner read cycle emits exactly one quit
notification, as the final event, after the command dispatches; the quit key
dispatches no command and command keys never produce a quit notification. -/
theorem c2_inner_cycle_quit :
    keyCommand 'q' = none ∧
    ∀ keys : List Char,
      cycleEvents keys = (processKeys keys).map InputEvent.cmd ++ [InputEvent.quit_notify] ∧
      InputEvent.quit_notify ∉ (processKeys keys).map InputEvent.cmd := by
  refine ⟨by decide, ?_⟩
  intro keys
  induction keys with
  | nil => simp [cycleEvents, processKeys]
  | cons k ks ih =>
    by_cases hq : k = 'q'
    · simp [cycleEvents, processKeys, hq]
    · cases hc : keyCommand k with
      | none => simpa [cycleEvents, processKeys, hq, hc] using ih
      | some c =>
        refine ⟨?_, ?_⟩
        · simp [cycleEvents, processKeys, hq, hc, ih.1]
        · simp [processKeys, hq, hc]

/-- Witness for C2 on a concrete key sequence with a command key, an unmapped
key, the quit key, and a command key after it that is never consumed. -/
theorem c2_inner_cycle_quit_witness :
    cycleEvents ['1', 'x', 'q', '2'] =
      [InputEvent.cmd TimerCmd.split_or_start, InputEvent.quit_notify] ∧
    InputEvent.quit_notify ∉ (processKeys ['1', 'x', 'q', '2']).map InputEvent.cmd :=
  ⟨((c2_inner_cycle_quit.2 ['1', 'x', 'q', '2']).1).trans (by decide),
   (c2_inner_cycle_quit.2 ['1', 'x', 'q', '2']).2⟩

/-- Claim C4, counterexample: at splits row count 65533 the u16 cast and u16
addition wrap, so the computed layout is not the claimed one with a
splits-table region of 65533 + 3 rows (the code produces 0 rows). -/
theorem c4_layout_counterexample :
    frameLayout 65533 ≠
      { margin := 1, direction := Direction.vertical,
        sizes := [3, 65533 + 3, 2, 1, 1, 1] } ∧
    frameLayout 65533 =
      { margin := 1, direction := Direction.vertical,
        sizes := [3, 0, 2, 1, 1, 1] } := by
  constructor
  · decide
  · decide

/-- Claim C4, amended: for every segment count n with n + 3 < 2^16 (so the
u16 arithmetic does not wrap), the layout recomputed each frame is the six
vertically stacked fixed regions title 3, splits n + 3, timer 2, previous
segment 1, sum of best 1, possible time save 1, inside a 1-cell margin. -/
theorem c4_layout_sizes (n : Nat) (h : n + 3 < 65536) :
    frameLayout n =
      { margin := 1, direction := Direction.vertical,
        sizes := [3, n + 3, 2, 1, 1, 1] } := by
  have hn : n % 65536 = n := Nat.mod_eq_of_lt (by omega)
  simp only [frameLayout, splitsRegionHeight, hn, Nat.mod_eq_of_lt h]

/-- Witness for C4 at the concrete segment count 4, matching the degenerate
and nominal cases: heights 3, 7, 2, 1, 1, 1. -/
theorem c4_layout_sizes_witness :
    4 + 3 < 65536 ∧
    frameLayout 4 =
      { margin := 1, direction := Direction.vertical,
        sizes := [3, 7, 2, 1, 1, 1] } :=
  ⟨by decide, c4_layout_sizes 4 (by decide)⟩

/-- Claim C6: composing the title text at a snapshot with an absent attempt
count does not succeed with the second line omitted; the code unwraps the
absent attempts and panics (modelled as none). -/
theorem c6_title_unwrap_panics :
    composeTitleText { line1 := ['G'], line2 := some ['C'], attempts := none } = none ∧
    composeTitleText { line1 := ['G'], line2 := none, attempts := none } = none := by
  constructor
  · rfl
  · rfl

/-- Claim C8, counterexample: the overlay merge invoked with operands of
mismatched widths (2 and 1) does not fail: it silently produces the output
of the zipped common prefix, against the spec-checked merge which rejects
the width mismatch. -/
theorem c8_merge_counterexample :
    overlayMerge ['a', 'b'] ['x'] = ['x'] ∧
    mergeSpecChecked ['a', 'b'] ['x'] = none := by
  constructor
  · decide
  · decide

/-- Claim C8, amended: the overlay merge with mismatched operand widths does
not fail fast; it silently truncates, returning an output whose width is the
minimum of the two operand widths. -/
theorem c8_merge_truncates (base overlay : List Char) :
    (overlayMerge base overlay).length = min base.length overlay.length := by
  simp [overlayMerge]

/-- Claim C9, counterexample: during one frame the draw function acquires
read access to the shared timer six times, not exactly once, and four of
those acquisitions happen after drawing has already begun. -/
theorem c9_lock_counterexample :
    drawTrace.countP isAcquire = 6 ∧
    drawTrace.countP isAcquire ≠ 1 ∧
    (drawTrace.dropWhile (fun e => !isDraw e)).countP isAcquire = 4 := by
  refine ⟨by decide, by decide, by decide⟩

/-- Claim C9, amended: the draw function acquires the read lock six times
per frame, once per widget state query; each acquisition is held for exactly
that one query and released immediately, and no widget is ever rendered
while the lock is held — but acquisitions are interleaved with drawing
rather than all completed before drawing begins. -/
theorem c9_lock_discipline :
    drawDepthOk drawTrace 0 = true ∧
    wellBracketed drawTrace = true ∧
    drawTrace.countP isAcquire = 6 := by
  refine ⟨by decide, by decide, by decide⟩

/-- Claim C10: a getopts parse failure prints the usage text and exits with
code 0, exactly the behavior of -h and --help. -/
theorem c10_parse_error_usage_exit :
    handleCli none = CliOutcome.usage_exit 0 ∧
    (∀ free : List String, handleCli (some { help := true, free := free }) =
      CliOutcome.usage_exit 0) ∧
    ∀ free : List String,
      handleCli none = handleCli (some { help := true, free := free }) :=
  ⟨rfl, fun _ => rfl, fun _ => rfl⟩

/-- Positionwise description of the overlay merge: at every index in range of
both operands, the output is the overlay character unless it is whitespace. -/
theorem overlayMerge_getD : ∀ (base overlay : List Char) (i : Nat),
    i < base.length → i < overlay.length →
    (overlayMerge base overlay).getD i ' ' =
      if (overlay.getD i ' ').isWhitespace then base.getD i ' '
      else overlay.getD i ' '
  | b :: bs, o :: os, 0, _, _ => by simp [overlayMerge]
  | b :: bs, o :: os, i + 1, hi, ho => by
    have h := overlayMerge_getD bs os i (by simpa using hi) (by simpa using ho)
    simpa [overlayMerge] using h
  | [], _, i, hi, _ => by simp at hi
  | _ :: _, [], i, _, ho => by simp at ho

/-- Merging an all-whitespace overlay of equal width returns the base. -/
theorem overlayMerge_all_whitespace : ∀ (base overlay : List Char),
    base.length = overlay.length → (∀ c ∈ overlay, c.isWhitespace) →
    overlayMerge base overlay = base
  | [], [], _, _ => rfl
  | [], _ :: _, h, _ => by simp at h
  | _ :: _, [], h, _ => by simp at h
  | b :: bs, o :: os, h, hw => by
    have hlen : bs.length = os.length := by simpa using h
    have ho : o.isWhitespace := hw o (List.mem_cons_self o os)
    have ih := overlayMerge_all_whitespace bs os hlen
      (fun c hc => hw c (List.mem_cons_of_mem o hc))
    simp only [overlayMerge, List.zipWith_cons_cons, ho, if_true]
    simpa [overlayMerge] using ih

/-- Merging an overlay of equal width with no whitespace returns the
overlay. -/
theorem overlayMerge_no_whitespace : ∀ (base overlay : List Char),
    base.length = overlay.length → (∀ c ∈ overlay, ¬ c.isWhitespace) →
    overlayMerge base overlay = overlay
  | [], [], _, _ => rfl
  | [], _ :: _, h, _ => by simp at h
  | _ :: _, [], h, _ => by simp at h
  | b :: bs, o :: os, h, hw => by
    have hlen : bs.length = os.length := by simpa using h
    have ho : ¬ o.isWhitespace := hw o (List.mem_cons_self o os)
    have ih := overlayMerge_no_whitespace bs os hlen
      (fun c hc => hw c (List.mem_cons_of_mem o hc))
    simp only [overlayMerge, List.zipWith_cons_cons, ho, if_false]
    simpa [overlayMerge] using ih

/-- Claim C5: for equal-width operands the overlay merge keeps the width and
picks, at each position, the overlay character unless it is whitespace;
merging an all-whitespace overlay returns the base, and merging an overlay
with no whitespace returns the overlay. -/
theorem c5_overlay_merge (base overlay : List Char)
    (h : base.length = overlay.length) :
    (overlayMerge base overlay).length = base.length ∧
    (∀ i, i < base.length →
      (overlayMerge base overlay).getD i ' ' =
        if (overlay.getD i ' ').isWhitespace then base.getD i ' '
        else overlay.getD i ' ') ∧
    ((∀ c ∈ overlay, c.isWhitespace) → overlayMerge base overlay = base) ∧
    ((∀ c ∈ overlay, ¬ c.isWhitespace) → overlayMerge base overlay = overlay) := by
  refine ⟨?_, ?_, overlayMerge_all_whitespace base overlay h,
    overlayMerge_no_whitespace base overlay h⟩
  · simp [overlayMerge, h]
  · intro i hi
    exact overlayMerge_getD base overlay i hi (h ▸ hi)

/-- Witness for C5 at a concrete equal-width pair: an all-whitespace overlay
leaves the base unchanged. -/
theorem c5_overlay_merge_witness :
    ((['a', 'b'] : List Char).length = ([' ', ' '] : List Char).length) ∧
    overlayMerge ['a', 'b'] [' ', ' '] = ['a', 'b'] :=
  ⟨by decide,
   (c5_overlay_merge ['a', 'b'] [' ', ' '] (by decide)).2.2.1 (by decide)⟩

/-- Quantizing a channel in the normalized range reduces to the plain floor
at scale 255, which lies in [0, 255]. -/
theorem quantizeChannel_in_range (c : ℚ) (h0 : 0 ≤ c) (h1 : c ≤ 1) :
    quantizeChannel c = ⌊c * 255⌋ ∧ 0 ≤ ⌊c * 255⌋ ∧ ⌊c * 255⌋ ≤ 255 := by
  have hnn : (0 : ℤ) ≤ ⌊c * 255⌋ :=
    Int.floor_nonneg.mpr (mul_nonneg h0 (by norm_num))
  have hle : c * 255 ≤ 255 := by nlinarith
  have hub : ⌊c * 255⌋ ≤ 255 := by
    have h2 : ⌊c * 255⌋ ≤ ⌊(255 : ℚ)⌋ := Int.floor_le_floor hle
    simpa using h2
  refine ⟨?_, hnn, hub⟩
  unfold quantizeChannel
  rw [min_eq_right hub, max_eq_right hnn]

/-- Claim C3: color resolution quantizes each normalized channel with scale
factor exactly 255: normalized black maps to (0, 0, 0), normalized white to
(255, 255, 255) with no wraparound, and every output channel of a normalized
input lies in [0, 255]. -/
theorem c3_color_quantization :
    get_tui_color 0 0 0 = (0, 0, 0) ∧
    get_tui_color 1 1 1 = (255, 255, 255) ∧
    ∀ red green blue : ℚ, 0 ≤ red → red ≤ 1 → 0 ≤ green → green ≤ 1 →
      0 ≤ blue → blue ≤ 1 →
      get_tui_color red green blue = (⌊red * 255⌋, ⌊green * 255⌋, ⌊blue * 255⌋) ∧
      (0 ≤ ⌊red * 255⌋ ∧ ⌊red * 255⌋ ≤ 255) ∧
      (0 ≤ ⌊green * 255⌋ ∧ ⌊green * 255⌋ ≤ 255) ∧
      (0 ≤ ⌊blue * 255⌋ ∧ ⌊blue * 255⌋ ≤ 255) := by
  refine ⟨?_, ?_, ?_⟩
  · norm_num [get_tui_color, quantizeChannel]
  · norm_num [get_tui_color, quantizeChannel]
  · intro red green blue hr0 hr1 hg0 hg1 hb0 hb1
    obtain ⟨hre, hr⟩ := quantizeChannel_in_range red hr0 hr1
    obtain ⟨hge, hg⟩ := quantizeChannel_in_range green hg0 hg1
    obtain ⟨hbe, hb⟩ := quantizeChannel_in_range blue hb0 hb1
    exact ⟨by simp [get_tui_color, hre, hge, hbe], hr, hg, hb⟩

/-- Witness for C3 at the concrete mid-gray channel value one half, which
quantizes to 127 in every channel. -/
theorem c3_color_quantization_witness :
    (0 ≤ (1 / 2 : ℚ) ∧ (1 / 2 : ℚ) ≤ 1) ∧
    get_tui_color (1 / 2) (1 / 2) (1 / 2) = (127, 127, 127) := by
  have h := (c3_color_quantization.2.2 (1 / 2) (1 / 2) (1 / 2) (by norm_num)
    (by norm_num) (by norm_num) (by norm_num) (by norm_num) (by norm_num)).1
  have hf : ⌊(1 / 2 : ℚ) * 255⌋ = 127 := by
    rw [show (1 / 2 : ℚ) * 255 = 255 / 2 by ring, Int.floor_eq_iff]
    norm_num
  refine ⟨⟨by norm_num, by norm_num⟩, ?_⟩
  rw [h, hf]

/-- Claim C7: with no FILE argument the built-in default run (game Livesplit
Terminal, category Any%, segments Split 1 through Split 4 and Complete!) is
substituted silently; with a FILE argument, a failed open or parse produces
exactly one diagnostic naming the path and exit code 1, with no fallback,
and a successful parse uses the parsed run. -/
theorem c7_run_acquisition {α : Type} (openF : String → Option α)
    (parseF : α → Option Run) (path : String) (f : α) :
    acquireRun none openF parseF = RunAcquisition.ok defaultRun ∧
    defaultRun = Run.mk "Livesplit Terminal" "Any%"
      ["Split 1", "Split 2", "Split 3", "Split 4", "Complete!"] ∧
    (openF path = none →
      acquireRun (some path) openF parseF =
        RunAcquisition.fail ("Unable to open " ++ path) 1) ∧
    (openF path = some f → parseF f = none →
      acquireRun (some path) openF parseF =
        RunAcquisition.fail ("Unable to parse " ++ path) 1) ∧
    (openF path = some f → ∀ r, parseF f = some r →
      acquireRun (some path) openF parseF = RunAcquisition.ok r) := by
  refine ⟨rfl, rfl, ?_, ?_, ?_⟩
  · intro h
    simp [acquireRun, h]
  · intro h1 h2
    simp [acquireRun, h1, h2]
  · intro h1 r h2
    simp [acquireRun, h1, h2]

/-- Witness for C7 at a concrete unreadable path: the diagnostic names the
path and the exit code is 1. -/
theorem c7_run_acquisition_witness :
    ((fun _ : String => (none : Option Unit)) "missing.lss" = none) ∧
    acquireRun (some "missing.lss") (fun _ : String => (none : Option Unit))
      (fun _ => some defaultRun) =
      RunAcquisition.fail ("Unable to open " ++ "missing.lss") 1 :=
  ⟨rfl, (c7_run_acquisition (fun _ : String => (none : Option Unit))
    (fun _ => some defaultRun) "missing.lss" ()).2.2.1 rfl⟩
